import Mathlib

/-!
Verification of the renderer subsystem of the OpenGL_Framework repository.

This file gives a shallow embedding of the renderer core:
the GL object model (buffer / vertex-array / program name spaces), the
Shader wrapper (shader.cpp), the per-variant configs (triangle_config.hpp,
cube_config.hpp), the immutable RenderContext (render_context.hpp), the two
renderer implementations (renderers/triangle_render.cpp and
renderers/cube_render.cpp, which share one control-flow skeleton and differ
only in accepted config type, diagnostic strings and the cleanup body), and
RenderFactory (render_factory.hpp).

Modelling conventions:
- GL object names are Nat; 0 is the reserved "no object" name.  Name
  allocation hands out successive nonzero names; each delete removes the
  name from the live set of its own object kind and, as in OpenGL, silently
  ignores names that do not denote a live object of that kind.
- float values that only flow through the state (colors, speeds, angles,
  vertex coordinates) are modelled exactly over the rationals; decimal
  literals of the source are taken at face value.
- Whether a GLSL source string compiles, whether a pair links, and what
  location a uniform name resolves to are driver decisions, modelled by an
  explicit oracle (GLDriver, and a location function for uniforms).
- matrices are kept symbolic: a term of the inductive Mat4 records exactly
  the glm calls that built the value.  A perspective matrix stores its
  aspect as Option; aspect = none models the non-finite float produced by
  the unguarded division width / height when height = 0.
- error reporting: each fallible operation returns, besides its result, the
  list of (RenderError, message) reports it issued on the diagnostic
  stream; callbackEvents restricts that list to what the registered error
  callback (if any) was invoked with.
-/

namespace OpenGLFramework

/-- Error kinds of the renderer interface.  The enum is declared in
irenderer.hpp (referenced by the sources via includes); the three
constructors are exactly the values used by the renderer implementations
and listed in the spec's error taxonomy. -/
inductive RenderError where
  | InitializationFailed
  | ShaderCompilationFailed
  | BufferCreationFailed
deriving Repr, DecidableEq

/-- The GL name environment: a fresh-name counter and the live-object set of
each object kind (buffers, vertex arrays, programs). -/
structure GLState where
  nextName : Nat
  liveBuffers : List Nat
  liveVertexArrays : List Nat
  livePrograms : List Nat
deriving Repr, DecidableEq

def GLState.initial : GLState := ⟨0, [], [], []⟩

/-- Names handed out by glGen* / glCreateProgram are nonzero by
construction. -/
def GLState.fresh (gl : GLState) : Nat := gl.nextName + 1

def glGenVertexArrays (gl : GLState) : Nat × GLState :=
  (gl.fresh, { gl with
                 nextName := gl.fresh
                 liveVertexArrays := gl.fresh :: gl.liveVertexArrays })

def glGenBuffers (gl : GLState) : Nat × GLState :=
  (gl.fresh, { gl with
                 nextName := gl.fresh
                 liveBuffers := gl.fresh :: gl.liveBuffers })

def glCreateProgram (gl : GLState) : Nat × GLState :=
  (gl.fresh, { gl with
                 nextName := gl.fresh
                 livePrograms := gl.fresh :: gl.livePrograms })

/-- glDeleteVertexArrays on a name that is not a live vertex array is
silently ignored. -/
def glDeleteVertexArrays (n : Nat) (gl : GLState) : GLState :=
  { gl with liveVertexArrays := gl.liveVertexArrays.erase n }

/-- glDeleteBuffers on a name that is not a live buffer is silently
ignored (in particular, passing a vertex-array name deletes nothing). -/
def glDeleteBuffers (n : Nat) (gl : GLState) : GLState :=
  { gl with liveBuffers := gl.liveBuffers.erase n }

def glDeleteProgram (n : Nat) (gl : GLState) : GLState :=
  { gl with livePrograms := gl.livePrograms.erase n }

/-- Driver oracle: which GLSL sources compile and which compiled pairs
link.  Deterministic per driver, as in a real GL implementation. -/
structure GLDriver where
  compiles : String → Bool
  links : String → String → Bool

/-- Symbolic 4x4 matrix: one constructor per glm operation the renderer
code performs.  The aspect of a perspective matrix is Option; none encodes
the non-finite float produced by a division by zero. -/
inductive Mat4 where
  | identity : Mat4
  | translate (m : Mat4) (x y z : ℚ) : Mat4
  | rotate (m : Mat4) (angleDeg x y z : ℚ) : Mat4
  | perspective (fovyDeg : ℚ) (aspect : Option ℚ) (near far : ℚ) : Mat4
  | mul (a b : Mat4) : Mat4
deriving Repr, DecidableEq

structure Vec4 where
  x : ℚ
  y : ℚ
  z : ℚ
  w : ℚ
deriving Repr, DecidableEq

/-! The Shader wrapper (shader.cpp). -/

/-- State of one Shader instance: the program name (0 = none), the
memoized uniform name-to-location cache, and the last error text. -/
structure Shader where
  programId : Nat
  uniformLocationCache : List (String × Int)
  lastErrorMsg : String
deriving Repr, DecidableEq

/-- Shader() constructor: m_programId(0), empty cache, empty error. -/
def Shader.initial : Shader := ⟨0, [], ""⟩

/-- Shader::release — deletes the GL program if one is held, zeroes the
handle and clears the uniform cache.  Idempotent. -/
def Shader.release (sh : Shader) (gl : GLState) : Shader × GLState :=
  let gl1 := if sh.programId ≠ 0 then glDeleteProgram sh.programId gl else gl
  ({ sh with programId := 0, uniformLocationCache := [] }, gl1)

/-- Shader::linkProgram — creates a program, attaches and links; on link
failure the program is deleted, the handle zeroed and the error recorded.
Link success is the driver's decision on the source pair. -/
def Shader.linkProgram (drv : GLDriver) (vertexSource fragmentSource : String)
    (sh : Shader) (gl : GLState) : Bool × Shader × GLState :=
  let P := glCreateProgram gl
  if drv.links vertexSource fragmentSource = false then
    (false, { sh with
                programId := 0
                lastErrorMsg := "Shader program linking failed: (driver info log)" },
     glDeleteProgram P.1 P.2)
  else
    (true, { sh with programId := P.1 }, P.2)

/-- Shader::loadFromSource — releases any previously held program first,
then compiles the vertex shader, the fragment shader, and links.  The
transient shader objects are created and deleted in balanced pairs on
every path and are not tracked. -/
def Shader.loadFromSource (drv : GLDriver) (vertexSource fragmentSource : String)
    (sh : Shader) (gl : GLState) : Bool × Shader × GLState :=
  let R := Shader.release sh gl
  if drv.compiles vertexSource = false then
    (false, { R.1 with lastErrorMsg := "VERTEX shader compilation failed: (driver info log)" }, R.2)
  else if drv.compiles fragmentSource = false then
    (false, { R.1 with lastErrorMsg := "FRAGMENT shader compilation failed: (driver info log)" }, R.2)
  else
    Shader.linkProgram drv vertexSource fragmentSource R.1 R.2

/-- Shader::getUniformLocation — looks the name up in the memoization
cache; on a miss, queries the driver (the uloc oracle) and caches the
answer.  This mutates the cache even though the C++ method is const (the
cache member is mutable). -/
def Shader.getUniformLocation (uloc : Nat → String → Int) (name : String)
    (sh : Shader) : Int × Shader :=
  match sh.uniformLocationCache.lookup name with
  | some location => (location, sh)
  | none =>
      let location := uloc sh.programId name
      (location, { sh with uniformLocationCache := (name, location) :: sh.uniformLocationCache })

/-- Shader::setMat4 — resolves the uniform location (possibly filling the
cache); the glUniformMatrix4fv upload itself has no modelled state. -/
def Shader.setMat4 (uloc : Nat → String → Int) (name : String) (_mat : Mat4)
    (sh : Shader) : Shader :=
  (Shader.getUniformLocation uloc name sh).2

/-! The per-variant configs (triangle_config.hpp, cube_config.hpp). -/

structure TriangleVertex where
  position : ℚ × ℚ × ℚ
  color : ℚ × ℚ × ℚ
deriving Repr, DecidableEq

structure CubeVertex where
  position : ℚ × ℚ × ℚ
  texCoord : ℚ × ℚ
deriving Repr, DecidableEq

/-- Embedded shader text constants (generated headers, identified here by
name; their contents never influence the modelled control flow beyond the
driver oracle's verdict on the string). -/
def TRIANGLE_VERTEX_SHADER : String := "triangle.vert"

def TRIANGLE_FRAGMENT_SHADER : String := "triangle.frag"

def CUBE_VERTEX_SHADER : String := "cube.vert"

def CUBE_FRAGMENT_SHADER : String := "cube.frag"

structure TriangleConfig where
  vertexShader : String
  fragmentShader : String
  vertices : List TriangleVertex
  clearColor : Vec4
  rotationSpeed : ℚ
deriving Repr, DecidableEq

/-- TriangleConfig() default constructor. -/
def TriangleConfig.default : TriangleConfig :=
  { vertexShader := TRIANGLE_VERTEX_SHADER
    fragmentShader := TRIANGLE_FRAGMENT_SHADER
    clearColor := ⟨0, 0, 1/2, 1⟩
    rotationSpeed := 1
    vertices :=
      [ ⟨(-1/2, -1/2, 0), (1, 0, 0)⟩,
        ⟨(0, 1/2, 0), (0, 1, 0)⟩,
        ⟨(1/2, -1/2, 0), (0, 0, 1)⟩ ] }

structure CubeConfig where
  vertexShader : String
  fragmentShader : String
  vertices : List CubeVertex
  clearColor : Vec4
  rotationSpeed : ℚ
deriving Repr, DecidableEq

/-- CubeConfig() default constructor (two triangles forming a quad). -/
def CubeConfig.default : CubeConfig :=
  { vertexShader := CUBE_VERTEX_SHADER
    fragmentShader := CUBE_FRAGMENT_SHADER
    clearColor := ⟨1/10, 1/10, 1/10, 1⟩
    rotationSpeed := 1
    vertices :=
      [ ⟨(-1, -1, 0), (0, 0)⟩,
        ⟨(1, -1, 0), (1, 0)⟩,
        ⟨(1, 1, 0), (1, 1)⟩,
        ⟨(1, 1, 0), (1, 1)⟩,
        ⟨(-1, 1, 0), (0, 1)⟩,
        ⟨(-1, -1, 0), (0, 0)⟩ ] }

/-- A config passed through the IRenderConfig interface; the constructor
records the dynamic (concrete) type that dynamic_cast recovers. -/
inductive IRenderConfig where
  | triangle (c : TriangleConfig)
  | cube (c : CubeConfig)
deriving Repr, DecidableEq

def IRenderConfig.vertexShaderSource : IRenderConfig → String
  | .triangle c => c.vertexShader
  | .cube c => c.vertexShader

def IRenderConfig.fragmentShaderSource : IRenderConfig → String
  | .triangle c => c.fragmentShader
  | .cube c => c.fragmentShader

def IRenderConfig.clearColor : IRenderConfig → Vec4
  | .triangle c => c.clearColor
  | .cube c => c.clearColor

def IRenderConfig.rotationSpeed : IRenderConfig → ℚ
  | .triangle c => c.rotationSpeed
  | .cube c => c.rotationSpeed

def IRenderConfig.vertexCount : IRenderConfig → Nat
  | .triangle c => c.vertices.length
  | .cube c => c.vertices.length

/-! The immutable per-frame RenderContext (render_context.hpp). -/

structure ViewportSize where
  width : Int
  height : Int
deriving Repr, DecidableEq

/-- RenderContext value: viewport, projection, delta time, frame number
(a uint64 counter; withFrameNumber only stores the value, so Nat). -/
structure RenderContext where
  viewportSize : ViewportSize
  projectionMatrix : Mat4
  deltaTime : ℚ
  frameNumber : Nat
deriving Repr, DecidableEq

/-- The RenderContext constructor: frame number starts at 0. -/
def RenderContext.make (viewportSize : ViewportSize) (projectionMatrix : Mat4)
    (deltaTime : ℚ := 0) : RenderContext :=
  ⟨viewportSize, projectionMatrix, deltaTime, 0⟩

/-- RenderContext::withFrameNumber — copies the receiver and sets the
frame number of the copy. -/
def RenderContext.withFrameNumber (ctx : RenderContext) (frame : Nat) : RenderContext :=
  { ctx with frameNumber := frame }

/-- RenderContext::withDeltaTime — copies the receiver and sets the delta
time of the copy. -/
def RenderContext.withDeltaTime (ctx : RenderContext) (dt : ℚ) : RenderContext :=
  { ctx with deltaTime := dt }

/-! The renderer state machine (renderers/triangle_render.cpp and
renderers/cube_render.cpp).  The two classes share one member list and one
control-flow skeleton; they differ in the accepted concrete config type,
their diagnostic strings, and the body of cleanup, so they are embedded as
one state type with the variant as an explicit tag. -/

inductive RendererKind where
  | triangle
  | cube
deriving Repr, DecidableEq

/-- The member variables of TriangleRender / CubeRender.  The optional
std::function error callback is modelled by whether a callback is
registered. -/
structure RendererState where
  shader : Shader
  vao : Nat
  vbo : Nat
  projection : Mat4
  clearColor : Vec4
  rotationSpeed : ℚ
  currentAngle : ℚ
  vertexCount : Int
  errorCallbackSet : Bool
  initialized : Bool
deriving Repr, DecidableEq

/-- TriangleRender() constructor initializer list. -/
def TriangleRender.new : RendererState :=
  { shader := Shader.initial
    vao := 0
    vbo := 0
    projection := Mat4.identity
    clearColor := ⟨0, 0, 1/2, 1⟩
    rotationSpeed := 1
    currentAngle := 0
    vertexCount := 0
    errorCallbackSet := false
    initialized := false }

/-- CubeRender() constructor initializer list. -/
def CubeRender.new : RendererState :=
  { TriangleRender.new with clearColor := ⟨1/10, 1/10, 1/10, 1⟩ }

def newRenderer : RendererKind → RendererState
  | .triangle => TriangleRender.new
  | .cube => CubeRender.new

/-- One reportError call: the (kind, message) pair written to the
diagnostic stream. -/
def reportError (error : RenderError) (msg : String) : List (RenderError × String) :=
  [(error, msg)]

/-- What the registered error callback was invoked with: reportError
forwards every report to the callback exactly when one is set. -/
def callbackEvents (st : RendererState) (reports : List (RenderError × String)) :
    List (RenderError × String) :=
  if st.errorCallbackSet then reports else []

/-- The dynamic_cast in initRenderer: does the config's concrete type match
the renderer variant? -/
def configMatches (kind : RendererKind) (config : IRenderConfig) : Bool :=
  match kind, config with
  | .triangle, .triangle _ => true
  | .cube, .cube _ => true
  | _, _ => false

def invalidConfigMsg : RendererKind → String
  | .triangle => "Invalid config type for TriangleRender"
  | .cube => "Invalid config type for CubeRender"

def compileFailMsg : RendererKind → String → String
  | .triangle, e => "Failed to compile shader: " ++ e
  | .cube, e => "Failed to compile shader:" ++ e

def notInitializedMsg : RendererKind → String
  | .triangle => "Renderer not initialized"
  | .cube => "CubeRender not initialized"

/-- initializeGeometry — rejects empty vertex data before touching the GL;
otherwise records the vertex count and creates the VAO and the VBO (the
upload and attribute-pointer calls mutate no modelled state).  The two
variants differ only in the vertex element type, which the state-level
effect does not depend on. -/
def initializeGeometry {V : Type} (vertices : List V) (st : RendererState)
    (gl : GLState) : Bool × RendererState × GLState :=
  if vertices.isEmpty then (false, st, gl)
  else
    let A := glGenVertexArrays gl
    let B := glGenBuffers A.2
    (true, { st with
               vertexCount := (vertices.length : Int)
               vao := A.1
               vbo := B.1 }, B.2)

def initializeGeometryFor (config : IRenderConfig) (st : RendererState)
    (gl : GLState) : Bool × RendererState × GLState :=
  match config with
  | .triangle c => initializeGeometry c.vertices st gl
  | .cube c => initializeGeometry c.vertices st gl

/-- initRenderer(config) — dynamic type check, shader build, geometry
upload, then caching of clear color and rotation speed and setting the
initialized flag.  Result: (return value, renderer state, GL state,
reports). -/
def initRenderer (kind : RendererKind) (drv : GLDriver) (config : IRenderConfig)
    (st : RendererState) (gl : GLState) :
    Bool × RendererState × GLState × List (RenderError × String) :=
  if configMatches kind config = false then
    (false, st, gl, reportError .InitializationFailed (invalidConfigMsg kind))
  else
    let L := Shader.loadFromSource drv config.vertexShaderSource
      config.fragmentShaderSource st.shader gl
    let st1 : RendererState := { st with shader := L.2.1 }
    if L.1 = false then
      (false, st1, L.2.2, reportError .ShaderCompilationFailed
        (compileFailMsg kind L.2.1.lastErrorMsg))
    else
      let G := initializeGeometryFor config st1 L.2.2
      if G.1 = false then
        (false, G.2.1, G.2.2, reportError .BufferCreationFailed
          "Failed to create vertex buffer")
      else
        (true, { G.2.1 with
                   clearColor := config.clearColor
                   rotationSpeed := config.rotationSpeed
                   initialized := true }, G.2.2, [])

/-- The per-call rotation update of render: add the cached speed, then
subtract 360 once if the sum exceeds 360. -/
def wrapAngle (speed angle : ℚ) : ℚ :=
  let a := angle + speed
  if a > 360 then a - 360 else a

/-- The model matrix built each frame: translate by (0,0,-5), then rotate
by the current angle about (0,0,1). -/
def modelMatrix (angleDeg : ℚ) : Mat4 :=
  Mat4.rotate (Mat4.translate Mat4.identity 0 0 (-5)) angleDeg 0 0 1

/-- render(context) — initialization guard, clear, rotation update, MVP
composition, uniform upload through the shader, draw.  The clear, bind,
draw and unbind calls mutate no modelled state. -/
def render (kind : RendererKind) (uloc : Nat → String → Int)
    (context : RenderContext) (st : RendererState) (gl : GLState) :
    Bool × RendererState × GLState × List (RenderError × String) :=
  if st.initialized = false then
    (false, st, gl, reportError .InitializationFailed (notInitializedMsg kind))
  else
    let newAngle := wrapAngle st.rotationSpeed st.currentAngle
    let mvp := Mat4.mul context.projectionMatrix (modelMatrix newAngle)
    let sh := Shader.setMat4 uloc "mvp" mvp st.shader
    (true, { st with currentAngle := newAngle, shader := sh }, gl, [])

/-- resize(width, height) — glViewport (no modelled state), then the
unguarded aspect division and the perspective recomputation.  A float
division width / height is non-finite exactly when height = 0, encoded as
aspect none. -/
def resize (width height : Int) (st : RendererState) (gl : GLState) :
    Bool × RendererState × GLState :=
  let aspect : Option ℚ := if height = 0 then none else some ((width : ℚ) / (height : ℚ))
  (true, { st with projection := Mat4.perspective 30 aspect 3 10 }, gl)

/-- cleanup() — releases handles and resets the initialized flag.  The
triangle variant deletes the VAO with glDeleteVertexArrays; the cube
variant passes the VAO name to glDeleteBuffers instead (the literal source
text of cube_render.cpp line 79). -/
def cleanup (kind : RendererKind) (st : RendererState) (gl : GLState) :
    RendererState × GLState :=
  let gl1 :=
    if st.vao ≠ 0 then
      match kind with
      | .triangle => glDeleteVertexArrays st.vao gl
      | .cube => glDeleteBuffers st.vao gl
    else gl
  let gl2 := if st.vbo ≠ 0 then glDeleteBuffers st.vbo gl1 else gl1
  let R := st.shader.release gl2
  ({ st with shader := R.1, vao := 0, vbo := 0, initialized := false }, R.2)

/-- setErrorCallback — stores the callback (or clears it when an empty
std::function is passed). -/
def setErrorCallback (cbSet : Bool) (st : RendererState) : RendererState :=
  { st with errorCallbackSet := cbSet }

/-! RenderFactory (render_factory.hpp). -/

/-- Which renderer variants are compiled into the build
(USE_TRIANGLE_RENDER / USE_CUBE_RENDER). -/
structure BuildFlags where
  useTriangleRender : Bool
  useCubeRender : Bool
deriving Repr, DecidableEq

/-- The underlying integer values of enum class RenderType; the switch
input ranges over all Int values because C++ lets any value of the
underlying type be cast into the enum. -/
def RenderTypeTriangle : Int := 0

def RenderTypeCube : Int := 1

/-- RenderFactory::create(RenderType) — each case exists only when its
variant is compiled in; every other value falls through to the default
case and yields null. -/
def RenderFactory.create (flags : BuildFlags) (ty : Int) :
    Option (RendererKind × RendererState) :=
  if flags.useTriangleRender = true ∧ ty = RenderTypeTriangle then
    some (.triangle, TriangleRender.new)
  else if flags.useCubeRender = true ∧ ty = RenderTypeCube then
    some (.cube, CubeRender.new)
  else none

/-- RenderFactory::create(const std::string&) — case-sensitive comparison
against the names of the compiled-in variants, then dispatch to the enum
overload; anything else yields null. -/
def RenderFactory.createByName (flags : BuildFlags) (typeName : String) :
    Option (RendererKind × RendererState) :=
  if flags.useTriangleRender = true ∧ typeName = "triangle" then
    RenderFactory.create flags RenderTypeTriangle
  else if flags.useCubeRender = true ∧ typeName = "cube" then
    RenderFactory.create flags RenderTypeCube
  else none

def kindName : RendererKind → String
  | .triangle => "triangle"
  | .cube => "cube"

/-- The set of name tokens the current build recognizes. -/
def compiledNames (flags : BuildFlags) : List String :=
  (if flags.useTriangleRender then ["triangle"] else []) ++
    (if flags.useCubeRender then ["cube"] else [])

/-- The set of enum values the current build recognizes. -/
def compiledTypeValues (flags : BuildFlags) : List Int :=
  (if flags.useTriangleRender then [RenderTypeTriangle] else []) ++
    (if flags.useCubeRender then [RenderTypeCube] else [])

/-! Call sequences over one renderer, for the lifecycle invariant. -/

inductive RenderOp where
  | initOp (config : IRenderConfig)
  | renderOp (context : RenderContext)
  | resizeOp (width height : Int)
  | cleanupOp
  | setErrorCallbackOp (cbSet : Bool)

def RenderOp.isInit : RenderOp → Bool
  | .initOp _ => true
  | _ => false

/-- Run one operation, keeping the renderer and GL state. -/
def execOp (kind : RendererKind) (drv : GLDriver) (uloc : Nat → String → Int) :
    RenderOp → RendererState × GLState → RendererState × GLState
  | .initOp config, s =>
      let r := initRenderer kind drv config s.1 s.2
      (r.2.1, r.2.2.1)
  | .renderOp context, s =>
      let r := render kind uloc context s.1 s.2
      (r.2.1, r.2.2.1)
  | .resizeOp w h, s =>
      let r := resize w h s.1 s.2
      (r.2.1, r.2.2)
  | .cleanupOp, s => cleanup kind s.1 s.2
  | .setErrorCallbackOp b, s => (setErrorCallback b s.1, s.2)

def execOps (kind : RendererKind) (drv : GLDriver) (uloc : Nat → String → Int) :
    List RenderOp → RendererState × GLState → RendererState × GLState
  | [], s => s
  | op :: rest, s => execOps kind drv uloc rest (execOp kind drv uloc op s)

/-- A call sequence is init-disciplined when every initRenderer call happens
in a state whose initialized flag is still false. -/
def initDisciplined (kind : RendererKind) (drv : GLDriver)
    (uloc : Nat → String → Int) :
    List RenderOp → RendererState × GLState → Bool
  | [], _ => true
  | op :: rest, s =>
      (!op.isInit || !s.1.initialized) &&
        initDisciplined kind drv uloc rest (execOp kind drv uloc op s)

/-- The spec's renderer invariant: a set initialized flag means all three
GPU handles are valid (nonzero). -/
abbrev rendererInv (st : RendererState) : Prop :=
  st.initialized = true → (st.shader.programId ≠ 0 ∧ st.vao ≠ 0 ∧ st.vbo ≠ 0)

/-! Shared concrete instances for witnesses and counterexamples. -/

/-- A driver on which every source compiles and links. -/
def drvAllOk : GLDriver := ⟨fun _ => true, fun _ _ => true⟩

/-- A uniform-location oracle resolving every name to location 0. -/
def ulocZero : Nat → String → Int := fun _ _ => 0

/-- A throwaway frame context. -/
def ctx0 : RenderContext := RenderContext.make ⟨800, 600⟩ Mat4.identity 0

/-- Exact remainder on the rationals, for stating the mod-360 claim. -/
def qmod (x m : ℚ) : ℚ := x - m * ⌊x / m⌋

/-- The angle after n render calls starting from a given angle. -/
def iterWrap (speed : ℚ) : Nat → ℚ → ℚ
  | 0, a => a
  | n + 1, a => iterWrap speed n (wrapAngle speed a)

/-- A driver on which every source except the literal "bad" compiles, and
every pair links. -/
def drvBad : GLDriver := ⟨fun s => s != "bad", fun _ _ => true⟩

/-- A successful triangle initialization run from a fresh renderer and a
fresh GL context. -/
def triangleInitRun : Bool × RendererState × GLState × List (RenderError × String) :=
  initRenderer .triangle drvAllOk (.triangle TriangleConfig.default)
    TriangleRender.new GLState.initial

/-- A successful cube initialization run from a fresh renderer and a fresh
GL context. -/
def cubeInitRun : Bool × RendererState × GLState × List (RenderError × String) :=
  initRenderer .cube drvAllOk (.cube CubeConfig.default)
    CubeRender.new GLState.initial

/-- cleanup after the successful cube initialization. -/
def cubeCleanupRun : RendererState × GLState :=
  cleanup .cube cubeInitRun.2.1 cubeInitRun.2.2.1

/-- cleanup after the successful triangle initialization. -/
def triangleCleanupRun : RendererState × GLState :=
  cleanup .triangle triangleInitRun.2.1 triangleInitRun.2.2.1

/-- A triangle initialization attempt on a config whose vertex data was
emptied by the builder setter. -/
def emptyVertexInitRun : Bool × RendererState × GLState × List (RenderError × String) :=
  initRenderer .triangle drvAllOk
    (.triangle { TriangleConfig.default with vertices := [] })
    TriangleRender.new GLState.initial

/-- A successful initialize followed by a re-initialize whose vertex
shader does not compile. -/
def reinitBadRun : RendererState × GLState :=
  execOps .triangle drvBad ulocZero
    [.initOp (.triangle TriangleConfig.default),
     .initOp (.triangle { TriangleConfig.default with vertexShader := "bad" })]
    (TriangleRender.new, GLState.initial)

/-- A Ready triangle renderer whose config set rotation speed 180. -/
def speed180Ready : RendererState × GLState :=
  execOps .triangle drvAllOk ulocZero
    [.initOp (.triangle { TriangleConfig.default with rotationSpeed := 180 })]
    (TriangleRender.new, GLState.initial)

/-- A full lifecycle: register a callback, initialize, render, resize,
cleanup, then initialize and render again.  Every initialize happens with
the initialized flag down. -/
def lifecycleOps : List RenderOp :=
  [.setErrorCallbackOp true,
   .initOp (.triangle TriangleConfig.default),
   .renderOp ctx0,
   .resizeOp 800 600,
   .cleanupOp,
   .initOp (.triangle TriangleConfig.default),
   .renderOp ctx0]

/-! Helper lemmas about the shader build. -/

theorem loadFromSource_ok (drv : GLDriver) (v f : String) (sh : Shader)
    (gl : GLState) (hv : drv.compiles v = true) (hf : drv.compiles f = true)
    (hl : drv.links v f = true) :
    Shader.loadFromSource drv v f sh gl =
      (true,
       { programId := (sh.release gl).2.fresh
         uniformLocationCache := []
         lastErrorMsg := sh.lastErrorMsg },
       (glCreateProgram (sh.release gl).2).2) := by
  simp [Shader.loadFromSource, Shader.linkProgram, hv, hf, hl, Shader.release,
    glCreateProgram]

theorem loadFromSource_fst_programId (drv : GLDriver) (v f : String)
    (sh : Shader) (gl : GLState)
    (h : (Shader.loadFromSource drv v f sh gl).1 = true) :
    (Shader.loadFromSource drv v f sh gl).2.1.programId ≠ 0 := by
  simp only [Shader.loadFromSource, Shader.linkProgram] at h ⊢
  split_ifs at h ⊢
  simp_all [glCreateProgram, GLState.fresh]

theorem loadFromSource_gl_buffers (drv : GLDriver) (v f : String)
    (sh : Shader) (gl : GLState) :
    (Shader.loadFromSource drv v f sh gl).2.2.liveBuffers = gl.liveBuffers ∧
    (Shader.loadFromSource drv v f sh gl).2.2.liveVertexArrays = gl.liveVertexArrays := by
  simp only [Shader.loadFromSource, Shader.linkProgram, Shader.release]
  split_ifs <;> simp [glCreateProgram, glDeleteProgram]

/-! Helper lemmas about the geometry step. -/

theorem initializeGeometryFor_eq_of_empty (config : IRenderConfig)
    (st : RendererState) (gl : GLState) (h : config.vertexCount = 0) :
    initializeGeometryFor config st gl = (false, st, gl) := by
  cases config with
  | triangle c =>
      simp only [IRenderConfig.vertexCount, List.length_eq_zero] at h
      simp [initializeGeometryFor, initializeGeometry, h]
  | cube c =>
      simp only [IRenderConfig.vertexCount, List.length_eq_zero] at h
      simp [initializeGeometryFor, initializeGeometry, h]

theorem initializeGeometryFor_eq_of_ne (config : IRenderConfig)
    (st : RendererState) (gl : GLState) (h : config.vertexCount ≠ 0) :
    initializeGeometryFor config st gl =
      (true,
       { st with
           vertexCount := (config.vertexCount : Int)
           vao := (glGenVertexArrays gl).1
           vbo := (glGenBuffers (glGenVertexArrays gl).2).1 },
       (glGenBuffers (glGenVertexArrays gl).2).2) := by
  cases config with
  | triangle c =>
      cases hvs : c.vertices with
      | nil => simp [IRenderConfig.vertexCount, hvs] at h
      | cons a t =>
          simp [initializeGeometryFor, initializeGeometry, hvs,
            IRenderConfig.vertexCount]
  | cube c =>
      cases hvs : c.vertices with
      | nil => simp [IRenderConfig.vertexCount, hvs] at h
      | cons a t =>
          simp [initializeGeometryFor, initializeGeometry, hvs,
            IRenderConfig.vertexCount]

theorem initializeGeometryFor_fail (config : IRenderConfig)
    (st : RendererState) (gl : GLState)
    (h : (initializeGeometryFor config st gl).1 = false) :
    initializeGeometryFor config st gl = (false, st, gl) := by
  by_cases hc : config.vertexCount = 0
  · exact initializeGeometryFor_eq_of_empty config st gl hc
  · rw [initializeGeometryFor_eq_of_ne config st gl hc] at h
    simp at h

/-! Helper lemmas about render and the uniform upload. -/

theorem setMat4_programId (uloc : Nat → String → Int) (name : String)
    (mat : Mat4) (sh : Shader) :
    (Shader.setMat4 uloc name mat sh).programId = sh.programId := by
  rcases h : sh.uniformLocationCache.lookup name with _ | l <;>
    simp [Shader.setMat4, Shader.getUniformLocation, h]

theorem setMat4_lastErrorMsg (uloc : Nat → String → Int) (name : String)
    (mat : Mat4) (sh : Shader) :
    (Shader.setMat4 uloc name mat sh).lastErrorMsg = sh.lastErrorMsg := by
  rcases h : sh.uniformLocationCache.lookup name with _ | l <;>
    simp [Shader.setMat4, Shader.getUniformLocation, h]

theorem render_ok (kind : RendererKind) (uloc : Nat → String → Int)
    (context : RenderContext) (st : RendererState) (gl : GLState)
    (h : st.initialized = true) :
    render kind uloc context st gl =
      (true,
       { st with
           currentAngle := wrapAngle st.rotationSpeed st.currentAngle
           shader := Shader.setMat4 uloc "mvp"
             (Mat4.mul context.projectionMatrix
               (modelMatrix (wrapAngle st.rotationSpeed st.currentAngle)))
             st.shader },
       gl, []) := by
  simp [render, h]

theorem render_uninit (kind : RendererKind) (uloc : Nat → String → Int)
    (context : RenderContext) (st : RendererState) (gl : GLState)
    (h : st.initialized = false) :
    render kind uloc context st gl =
      (false, st, gl,
       reportError .InitializationFailed (notInitializedMsg kind)) := by
  simp [render, h]

/-! Helper lemmas about initRenderer. -/

theorem initRenderer_ok (kind : RendererKind) (drv : GLDriver)
    (config : IRenderConfig) (st : RendererState) (gl : GLState)
    (hm : configMatches kind config = true)
    (hv : drv.compiles config.vertexShaderSource = true)
    (hf : drv.compiles config.fragmentShaderSource = true)
    (hl : drv.links config.vertexShaderSource config.fragmentShaderSource = true)
    (hne : config.vertexCount ≠ 0) :
    (initRenderer kind drv config st gl).1 = true ∧
    (initRenderer kind drv config st gl).2.1.initialized = true ∧
    (initRenderer kind drv config st gl).2.1.shader.programId ≠ 0 ∧
    (initRenderer kind drv config st gl).2.1.vao ≠ 0 ∧
    (initRenderer kind drv config st gl).2.1.vbo ≠ 0 := by
  have hL := loadFromSource_ok drv config.vertexShaderSource
    config.fragmentShaderSource st.shader gl hv hf hl
  simp only [initRenderer, hm, hL]
  rw [initializeGeometryFor_eq_of_ne _ _ _ hne]
  simp [GLState.fresh, glGenVertexArrays, glGenBuffers]

theorem initRenderer_fail_state (kind : RendererKind) (drv : GLDriver)
    (config : IRenderConfig) (st : RendererState) (gl : GLState)
    (h : (initRenderer kind drv config st gl).1 = false) :
    (initRenderer kind drv config st gl).2.1.initialized = st.initialized ∧
    (initRenderer kind drv config st gl).2.2.1.liveBuffers = gl.liveBuffers ∧
    (initRenderer kind drv config st gl).2.2.1.liveVertexArrays = gl.liveVertexArrays := by
  simp only [initRenderer] at h ⊢
  split_ifs at h ⊢ with h1 h2 h3
  · simp
  · exact ⟨rfl,
      (loadFromSource_gl_buffers drv _ _ st.shader gl).1,
      (loadFromSource_gl_buffers drv _ _ st.shader gl).2⟩
  · rw [initializeGeometryFor_fail _ _ _ h3]
    exact ⟨rfl,
      (loadFromSource_gl_buffers drv _ _ st.shader gl).1,
      (loadFromSource_gl_buffers drv _ _ st.shader gl).2⟩

theorem initializeGeometryFor_shader (config : IRenderConfig)
    (st : RendererState) (gl : GLState) :
    (initializeGeometryFor config st gl).2.1.shader = st.shader := by
  by_cases hc : config.vertexCount = 0
  · rw [initializeGeometryFor_eq_of_empty _ _ _ hc]
  · rw [initializeGeometryFor_eq_of_ne _ _ _ hc]

theorem initializeGeometryFor_ok_handles (config : IRenderConfig)
    (st : RendererState) (gl : GLState)
    (h : (initializeGeometryFor config st gl).1 = true) :
    (initializeGeometryFor config st gl).2.1.vao ≠ 0 ∧
    (initializeGeometryFor config st gl).2.1.vbo ≠ 0 := by
  by_cases hc : config.vertexCount = 0
  · rw [initializeGeometryFor_eq_of_empty _ _ _ hc] at h; cases h
  · rw [initializeGeometryFor_eq_of_ne _ _ _ hc]
    simp [glGenVertexArrays, glGenBuffers, GLState.fresh]

/-! The lifecycle invariant: preservation by each operation. -/

theorem initRenderer_inv (kind : RendererKind) (drv : GLDriver)
    (config : IRenderConfig) (st : RendererState) (gl : GLState)
    (h0 : st.initialized = false) :
    rendererInv (initRenderer kind drv config st gl).2.1 := by
  simp only [initRenderer]
  split_ifs with h1 h2 h3
  · intro hinit; rw [h0] at hinit; cases hinit
  · intro hinit; rw [h0] at hinit; cases hinit
  · rw [initializeGeometryFor_fail _ _ _ h3]
    intro hinit; rw [h0] at hinit; cases hinit
  · intro _
    have h2' : (Shader.loadFromSource drv config.vertexShaderSource
        config.fragmentShaderSource st.shader gl).1 = true := by
      simpa using h2
    have h3' : (initializeGeometryFor config
        { st with shader := (Shader.loadFromSource drv config.vertexShaderSource
            config.fragmentShaderSource st.shader gl).2.1 }
        (Shader.loadFromSource drv config.vertexShaderSource
            config.fragmentShaderSource st.shader gl).2.2).1 = true := by
      simpa using h3
    refine ⟨?_, (initializeGeometryFor_ok_handles _ _ _ h3').1,
      (initializeGeometryFor_ok_handles _ _ _ h3').2⟩
    rw [initializeGeometryFor_shader]
    exact loadFromSource_fst_programId drv _ _ st.shader gl h2'

theorem execOp_inv (kind : RendererKind) (drv : GLDriver)
    (uloc : Nat → String → Int) (op : RenderOp) (st : RendererState)
    (gl : GLState) (hInv : rendererInv st)
    (hd : op.isInit = true → st.initialized = false) :
    rendererInv (execOp kind drv uloc op (st, gl)).1 := by
  cases op with
  | initOp config => exact initRenderer_inv kind drv config st gl (hd rfl)
  | renderOp context =>
      by_cases h : st.initialized = true
      · simp only [execOp, render_ok kind uloc context st gl h]
        intro _
        refine ⟨?_, (hInv h).2.1, (hInv h).2.2⟩
        rw [setMat4_programId]
        exact (hInv h).1
      · have h' : st.initialized = false := by simpa using h
        simp only [execOp, render_uninit kind uloc context st gl h']
        exact hInv
  | resizeOp w h' =>
      simp only [execOp, resize]
      intro hi
      exact hInv hi
  | cleanupOp =>
      simp only [execOp, cleanup]
      intro hi
      simp at hi
  | setErrorCallbackOp b =>
      simp only [execOp, setErrorCallback]
      intro hi
      exact hInv hi

theorem execOps_inv (kind : RendererKind) (drv : GLDriver)
    (uloc : Nat → String → Int) :
    ∀ (ops : List RenderOp) (st : RendererState) (gl : GLState),
      rendererInv st → initDisciplined kind drv uloc ops (st, gl) = true →
      rendererInv (execOps kind drv uloc ops (st, gl)).1 := by
  intro ops
  induction ops with
  | nil => intro st gl hInv _; simpa [execOps] using hInv
  | cons op rest ih =>
      intro st gl hInv hd
      rw [initDisciplined, Bool.and_eq_true] at hd
      obtain ⟨h1, h2⟩ := hd
      have hop : op.isInit = true → st.initialized = false := by
        intro hi
        rw [hi] at h1
        simpa using h1
      have hInv' := execOp_inv kind drv uloc op st gl hInv hop
      have hrec := ih (execOp kind drv uloc op (st, gl)).1
        (execOp kind drv uloc op (st, gl)).2 hInv' h2
      simpa [execOps] using hrec

/-! The rotation-angle development for render sequences. -/

theorem execOps_render_replicate (kind : RendererKind) (drv : GLDriver)
    (uloc : Nat → String → Int) (context : RenderContext) :
    ∀ (n : ℕ) (st : RendererState) (gl : GLState), st.initialized = true →
      ((execOps kind drv uloc (List.replicate n (.renderOp context)) (st, gl)).1.initialized = true ∧
       (execOps kind drv uloc (List.replicate n (.renderOp context)) (st, gl)).1.rotationSpeed = st.rotationSpeed ∧
       (execOps kind drv uloc (List.replicate n (.renderOp context)) (st, gl)).1.currentAngle =
         iterWrap st.rotationSpeed n st.currentAngle) := by
  intro n
  induction n with
  | zero => intro st gl h; simp [execOps, iterWrap, h]
  | succ m ih =>
      intro st gl h
      have hr := render_ok kind uloc context st gl h
      have hstep : execOps kind drv uloc
            (List.replicate (m + 1) (RenderOp.renderOp context)) (st, gl) =
          execOps kind drv uloc (List.replicate m (RenderOp.renderOp context))
            ({ st with
                 currentAngle := wrapAngle st.rotationSpeed st.currentAngle
                 shader := Shader.setMat4 uloc "mvp"
                   (Mat4.mul context.projectionMatrix
                     (modelMatrix (wrapAngle st.rotationSpeed st.currentAngle)))
                   st.shader }, gl) := by
        rw [List.replicate_succ]
        simp [execOps, execOp, hr]
      rw [hstep]
      exact ih _ gl h

theorem iterWrap_inv (s : ℚ) (hs0 : 0 < s) (hs1 : s ≤ 360) :
    ∀ (n : ℕ) (a : ℚ), 0 < a → a ≤ 360 →
      (0 < iterWrap s n a ∧ iterWrap s n a ≤ 360 ∧
       ∃ k : ℕ, a + n * s = iterWrap s n a + 360 * (k : ℚ)) := by
  intro n
  induction n with
  | zero =>
      intro a h0 h1
      exact ⟨h0, h1, 0, by simp [iterWrap]⟩
  | succ m ih =>
      intro a h0 h1
      rw [iterWrap]
      by_cases hw : a + s > 360
      · have hwa : wrapAngle s a = a + s - 360 := by
          simp only [wrapAngle]
          rw [if_pos hw]
        rw [hwa]
        obtain ⟨p0, p1, k, pk⟩ := ih (a + s - 360) (by linarith) (by linarith)
        refine ⟨p0, p1, k + 1, ?_⟩
        push_cast at pk ⊢
        linarith
      · have hwa : wrapAngle s a = a + s := by
          simp only [wrapAngle]
          rw [if_neg hw]
        rw [hwa]
        obtain ⟨p0, p1, k, pk⟩ := ih (a + s) (by linarith) (by linarith)
        refine ⟨p0, p1, k, ?_⟩
        push_cast at pk ⊢
        linarith

/-! Concrete runs below are evaluated with decide; the rational arithmetic
definitions are restored to their default reducibility for that purpose. -/

attribute [local semireducible] Rat.add Rat.sub Rat.mul Rat.inv Rat.ofScientific

/-! Claim C1. -/

/-- C1, counterexample: on a fresh TriangleRender, initRenderer with a
correctly typed config whose vertex data is empty returns false and leaves
the initialized flag down, but the shader program compiled before the
vertex-buffer step failed (program name 1) is still held by the renderer
and still live in the GL context when initRenderer returns — it is not
released, contradicting the all-or-nothing claim. -/
theorem C1_counterexample :
    emptyVertexInitRun.1 = false ∧
    emptyVertexInitRun.2.1.initialized = false ∧
    emptyVertexInitRun.2.2.2 =
      [(RenderError.BufferCreationFailed, "Failed to create vertex buffer")] ∧
    emptyVertexInitRun.2.1.shader.programId = 1 ∧
    emptyVertexInitRun.2.2.1.livePrograms = [1] := by decide

/-- C1, amended: every failing initRenderer leaves the initialized flag
false (when it was false before the call) and acquires no vertex buffer
and no vertex array; but on the empty-vertex-data path the shader program
compiled just before is retained by the renderer (live in the GL context)
rather than released before initRenderer returns. -/
theorem C1_initialize_failure_effects (kind : RendererKind) (drv : GLDriver)
    (config : IRenderConfig) (st : RendererState) (gl : GLState) :
    (st.initialized = false → (initRenderer kind drv config st gl).1 = false →
      ((initRenderer kind drv config st gl).2.1.initialized = false ∧
       (initRenderer kind drv config st gl).2.2.1.liveBuffers = gl.liveBuffers ∧
       (initRenderer kind drv config st gl).2.2.1.liveVertexArrays = gl.liveVertexArrays)) ∧
    (configMatches kind config = true → config.vertexCount = 0 →
      drv.compiles config.vertexShaderSource = true →
      drv.compiles config.fragmentShaderSource = true →
      drv.links config.vertexShaderSource config.fragmentShaderSource = true →
      ((initRenderer kind drv config st gl).1 = false ∧
       (initRenderer kind drv config st gl).2.2.2 =
         [(RenderError.BufferCreationFailed, "Failed to create vertex buffer")] ∧
       (initRenderer kind drv config st gl).2.1.shader.programId ≠ 0 ∧
       (initRenderer kind drv config st gl).2.1.shader.programId ∈
         (initRenderer kind drv config st gl).2.2.1.livePrograms)) := by
  constructor
  · intro h0 hf
    obtain ⟨e1, e2, e3⟩ := initRenderer_fail_state kind drv config st gl hf
    exact ⟨e1.trans h0, e2, e3⟩
  · intro hm h0 hv hfc hl
    have hL := loadFromSource_ok drv config.vertexShaderSource
      config.fragmentShaderSource st.shader gl hv hfc hl
    simp only [initRenderer, hm, hL]
    rw [initializeGeometryFor_eq_of_empty _ _ _ h0]
    simp [glCreateProgram, GLState.fresh, reportError]

/-- C1, witness: the amended theorem applied to the concrete empty-vertex
run of the counterexample. -/
theorem C1_witness :
    (emptyVertexInitRun.2.1.initialized = false ∧
     emptyVertexInitRun.2.2.1.liveBuffers = GLState.initial.liveBuffers ∧
     emptyVertexInitRun.2.2.1.liveVertexArrays = GLState.initial.liveVertexArrays) ∧
    (emptyVertexInitRun.1 = false ∧
     emptyVertexInitRun.2.2.2 =
       [(RenderError.BufferCreationFailed, "Failed to create vertex buffer")] ∧
     emptyVertexInitRun.2.1.shader.programId ≠ 0 ∧
     emptyVertexInitRun.2.1.shader.programId ∈ emptyVertexInitRun.2.2.1.livePrograms) :=
  ⟨(C1_initialize_failure_effects .triangle drvAllOk
      (.triangle { TriangleConfig.default with vertices := [] })
      TriangleRender.new GLState.initial).1 rfl (by decide),
   (C1_initialize_failure_effects .triangle drvAllOk
      (.triangle { TriangleConfig.default with vertices := [] })
      TriangleRender.new GLState.initial).2 (by decide) (by decide) (by decide)
     (by decide) (by decide)⟩

/-! Claim C2. -/

/-- C2, counterexample: a successful initialize followed by a re-initialize
whose vertex shader fails to compile leaves initialized = true while the
shader program handle has been reset to 0 (loadFromSource released the old
program before compiling), so the claimed invariant fails under this call
sequence. -/
theorem C2_counterexample :
    reinitBadRun.1.initialized = true ∧
    reinitBadRun.1.shader.programId = 0 ∧
    ¬ rendererInv reinitBadRun.1 := by decide

/-- C2, amended: the invariant (initialized implies all three GPU handles
nonzero) holds for the constructor state and is preserved by every call
sequence in which initRenderer is only invoked while the initialized flag
is false; the unrestricted claim fails on a failed re-initialize after a
success. -/
theorem C2_disciplined_invariant (kind : RendererKind) (drv : GLDriver)
    (uloc : Nat → String → Int) (ops : List RenderOp) (st : RendererState)
    (gl : GLState) (hInv : rendererInv st)
    (hd : initDisciplined kind drv uloc ops (st, gl) = true) :
    rendererInv (newRenderer kind) ∧
    rendererInv (execOps kind drv uloc ops (st, gl)).1 := by
  refine ⟨?_, execOps_inv kind drv uloc ops st gl hInv hd⟩
  cases kind <;> intro h <;>
    simp [newRenderer, TriangleRender.new, CubeRender.new] at h

/-- C2, witness: the amended theorem applied to a concrete full lifecycle
(initialize, render, resize, cleanup, re-initialize, render). -/
theorem C2_witness :
    rendererInv (newRenderer .triangle) ∧
    rendererInv (execOps .triangle drvAllOk ulocZero lifecycleOps
      (TriangleRender.new, GLState.initial)).1 :=
  C2_disciplined_invariant .triangle drvAllOk ulocZero lifecycleOps
    TriangleRender.new GLState.initial (by decide) (by decide)

/-! Claim C3. -/

/-- C3, counterexample: a Ready renderer with rotation speed 180 and angle
0 reaches angle 360 after two render calls, while (2 * 180) mod 360 = 0;
the tracked angle neither equals the mod value nor lies in [0, 360). -/
theorem C3_counterexample :
    speed180Ready.1.initialized = true ∧
    speed180Ready.1.rotationSpeed = 180 ∧
    speed180Ready.1.currentAngle = 0 ∧
    (execOps .triangle drvAllOk ulocZero
        (List.replicate 2 (.renderOp ctx0)) speed180Ready).1.currentAngle = 360 ∧
    qmod ((2 : ℚ) * 180) 360 = 0 ∧
    (execOps .triangle drvAllOk ulocZero
        (List.replicate 2 (.renderOp ctx0)) speed180Ready).1.currentAngle ≠
      qmod ((2 : ℚ) * 180) 360 ∧
    ¬ ((execOps .triangle drvAllOk ulocZero
        (List.replicate 2 (.renderOp ctx0)) speed180Ready).1.currentAngle < 360) := by
  decide

/-- C3, amended: each render call advances the angle by the cached speed
and subtracts 360 once when the sum exceeds 360, so for 0 < s ≤ 360 and
N ≥ 1 consecutive render calls from a Ready renderer at angle 0 the
tracked angle lies in (0, 360] — not [0, 360) — and is congruent to N * s
modulo 360 (it equals 360, not 0, whenever N * s is a positive multiple of
360; for s > 360 the angle is not bounded at all). -/
theorem C3_render_angle (kind : RendererKind) (drv : GLDriver)
    (uloc : Nat → String → Int) (context : RenderContext) (st : RendererState)
    (gl : GLState) (s : ℚ) (N : ℕ) (hinit : st.initialized = true)
    (hspeed : st.rotationSpeed = s) (hangle : st.currentAngle = 0)
    (hs0 : 0 < s) (hs1 : s ≤ 360) (hN : 1 ≤ N) :
    0 < (execOps kind drv uloc (List.replicate N (.renderOp context))
        (st, gl)).1.currentAngle ∧
    (execOps kind drv uloc (List.replicate N (.renderOp context))
        (st, gl)).1.currentAngle ≤ 360 ∧
    ∃ k : ℕ, (N : ℚ) * s =
      (execOps kind drv uloc (List.replicate N (.renderOp context))
        (st, gl)).1.currentAngle + 360 * (k : ℚ) := by
  obtain ⟨m, rfl⟩ : ∃ m, N = m + 1 := ⟨N - 1, (Nat.succ_pred_eq_of_pos hN).symm⟩
  obtain ⟨-, -, hA⟩ := execOps_render_replicate kind drv uloc context (m + 1) st gl hinit
  rw [hA, hspeed, hangle]
  have hw0 : wrapAngle s 0 = s := by
    simp only [wrapAngle]
    rw [if_neg (by linarith : ¬ ((0 : ℚ) + s > 360))]
    ring
  rw [iterWrap, hw0]
  obtain ⟨p0, p1, k, pk⟩ := iterWrap_inv s hs0 hs1 m s hs0 hs1
  refine ⟨p0, p1, k, ?_⟩
  push_cast at pk ⊢
  linarith

/-- C3, witness: the amended theorem applied to the concrete Ready
renderer produced by a default triangle initialize (speed 1, angle 0) and
five render calls. -/
theorem C3_witness :
    0 < (execOps .triangle drvAllOk ulocZero (List.replicate 5 (.renderOp ctx0))
        (triangleInitRun.2.1, triangleInitRun.2.2.1)).1.currentAngle ∧
    (execOps .triangle drvAllOk ulocZero (List.replicate 5 (.renderOp ctx0))
        (triangleInitRun.2.1, triangleInitRun.2.2.1)).1.currentAngle ≤ 360 ∧
    ∃ k : ℕ, ((5 : ℕ) : ℚ) * 1 =
      (execOps .triangle drvAllOk ulocZero (List.replicate 5 (.renderOp ctx0))
        (triangleInitRun.2.1, triangleInitRun.2.2.1)).1.currentAngle + 360 * (k : ℚ) :=
  C3_render_angle .triangle drvAllOk ulocZero ctx0 triangleInitRun.2.1
    triangleInitRun.2.2.1 1 5 (by decide) (by decide) (by decide) (by decide)
    (by decide) (by decide)

/-! Claim C4. -/

/-- C4, counterexample: resize with height = 0 neither rejects the call
nor special-cases the height — it returns true and stores a projection
whose aspect is the non-finite result of the unguarded division, replacing
the previous projection. -/
theorem C4_counterexample :
    (resize 800 0 TriangleRender.new GLState.initial).1 = true ∧
    (resize 800 0 TriangleRender.new GLState.initial).2.1.projection =
      Mat4.perspective 30 none 3 10 ∧
    (resize 800 0 TriangleRender.new GLState.initial).2.1.projection ≠
      TriangleRender.new.projection := by decide

/-- C4, amended: resize performs no height check and always returns true,
for height = 0 included; it stores a perspective projection (fov 30, near
3, far 10) whose aspect is width / height when height is nonzero and the
non-finite result of the division by zero otherwise, so height nonzero is
an unchecked caller obligation. -/
theorem C4_resize_unguarded (width height : Int) (st : RendererState)
    (gl : GLState) :
    (resize width height st gl).1 = true ∧
    (resize width height st gl).2.1.projection =
      Mat4.perspective 30
        (if height = 0 then none else some ((width : ℚ) / (height : ℚ))) 3 10 ∧
    (resize width height st gl).2.2 = gl ∧
    (resize width height st gl).2.1.initialized = st.initialized := by
  exact ⟨rfl, rfl, rfl, rfl⟩

/-! Claim C5. -/

/-- C5: after a successful cube initialize (VAO name 2 live), cleanup
resets the handles and the initialized flag and releases the buffer and
the program, but the vertex-array object stays live: cube_render.cpp
passes the VAO name to glDeleteBuffers, which ignores it.  The identical
sequence through TriangleRender (which calls glDeleteVertexArrays) leaves
no live vertex array.  A second cube cleanup is still a no-op. -/
theorem C5_cube_cleanup_vao_leak :
    cubeInitRun.1 = true ∧
    cubeInitRun.2.2.1.liveVertexArrays = [2] ∧
    cubeCleanupRun.1.vao = 0 ∧
    cubeCleanupRun.1.vbo = 0 ∧
    cubeCleanupRun.1.shader.programId = 0 ∧
    cubeCleanupRun.1.initialized = false ∧
    cubeCleanupRun.2.liveBuffers = [] ∧
    cubeCleanupRun.2.livePrograms = [] ∧
    cubeCleanupRun.2.liveVertexArrays = [2] ∧
    triangleCleanupRun.2.liveVertexArrays = [] ∧
    cleanup .cube cubeCleanupRun.1 cubeCleanupRun.2 = cubeCleanupRun := by
  decide

/-! Claim C6. -/

/-- C6: initRenderer with a config of the wrong concrete type reports
InitializationFailed, returns false, and changes nothing — renderer state
and GL state are returned untouched, so the initialized flag stays false —
and a subsequent initRenderer with a correctly typed config (compiling
shaders, nonempty vertices) succeeds. -/
theorem C6_wrong_config_type (kind : RendererKind) (drv : GLDriver)
    (config : IRenderConfig) (st : RendererState) (gl : GLState)
    (hm : configMatches kind config = false) (h0 : st.initialized = false) :
    (initRenderer kind drv config st gl).1 = false ∧
    (initRenderer kind drv config st gl).2.1 = st ∧
    (initRenderer kind drv config st gl).2.2.1 = gl ∧
    (initRenderer kind drv config st gl).2.1.initialized = false ∧
    (initRenderer kind drv config st gl).2.2.2 =
      [(RenderError.InitializationFailed, invalidConfigMsg kind)] ∧
    (∀ config2 : IRenderConfig, configMatches kind config2 = true →
      drv.compiles config2.vertexShaderSource = true →
      drv.compiles config2.fragmentShaderSource = true →
      drv.links config2.vertexShaderSource config2.fragmentShaderSource = true →
      config2.vertexCount ≠ 0 →
      ((initRenderer kind drv config2 (initRenderer kind drv config st gl).2.1
          (initRenderer kind drv config st gl).2.2.1).1 = true ∧
       (initRenderer kind drv config2 (initRenderer kind drv config st gl).2.1
          (initRenderer kind drv config st gl).2.2.1).2.1.initialized = true)) := by
  have hbase : initRenderer kind drv config st gl =
      (false, st, gl,
       reportError .InitializationFailed (invalidConfigMsg kind)) := by
    simp [initRenderer, hm]
  refine ⟨by rw [hbase], by rw [hbase], by rw [hbase],
    by rw [hbase]; exact h0, by rw [hbase]; rfl, ?_⟩
  intro config2 hm2 hv2 hf2 hl2 hne2
  rw [hbase]
  exact ⟨(initRenderer_ok kind drv config2 st gl hm2 hv2 hf2 hl2 hne2).1,
    (initRenderer_ok kind drv config2 st gl hm2 hv2 hf2 hl2 hne2).2.1⟩

/-- C6, witness: the theorem applied to a fresh TriangleRender handed a
CubeConfig, then re-initialized with the default TriangleConfig. -/
theorem C6_witness :
    (initRenderer .triangle drvAllOk (.cube CubeConfig.default)
        TriangleRender.new GLState.initial).1 = false ∧
    (initRenderer .triangle drvAllOk (.cube CubeConfig.default)
        TriangleRender.new GLState.initial).2.1 = TriangleRender.new ∧
    (initRenderer .triangle drvAllOk (.cube CubeConfig.default)
        TriangleRender.new GLState.initial).2.2.1 = GLState.initial ∧
    (initRenderer .triangle drvAllOk (.cube CubeConfig.default)
        TriangleRender.new GLState.initial).2.1.initialized = false ∧
    (initRenderer .triangle drvAllOk (.cube CubeConfig.default)
        TriangleRender.new GLState.initial).2.2.2 =
      [(RenderError.InitializationFailed, invalidConfigMsg .triangle)] ∧
    (∀ config2 : IRenderConfig, configMatches .triangle config2 = true →
      drvAllOk.compiles config2.vertexShaderSource = true →
      drvAllOk.compiles config2.fragmentShaderSource = true →
      drvAllOk.links config2.vertexShaderSource config2.fragmentShaderSource = true →
      config2.vertexCount ≠ 0 →
      ((initRenderer .triangle drvAllOk config2
          (initRenderer .triangle drvAllOk (.cube CubeConfig.default)
            TriangleRender.new GLState.initial).2.1
          (initRenderer .triangle drvAllOk (.cube CubeConfig.default)
            TriangleRender.new GLState.initial).2.2.1).1 = true ∧
       (initRenderer .triangle drvAllOk config2
          (initRenderer .triangle drvAllOk (.cube CubeConfig.default)
            TriangleRender.new GLState.initial).2.1
          (initRenderer .triangle drvAllOk (.cube CubeConfig.default)
            TriangleRender.new GLState.initial).2.2.1).2.1.initialized = true)) :=
  C6_wrong_config_type .triangle drvAllOk (.cube CubeConfig.default)
    TriangleRender.new GLState.initial (by decide) rfl

/-! Claim C7. -/

/-- C7: render on a renderer whose initialize has not succeeded returns
false, leaves the renderer and GL state untouched, and invokes the
registered error callback with InitializationFailed; and after a later
successful initRenderer (matching config, compiling shaders, nonempty
vertices), render returns true. -/
theorem C7_render_before_init (kind : RendererKind) (drv : GLDriver)
    (uloc : Nat → String → Int) (context : RenderContext)
    (st : RendererState) (gl : GLState) (h0 : st.initialized = false)
    (hcb : st.errorCallbackSet = true) :
    (render kind uloc context st gl).1 = false ∧
    (render kind uloc context st gl).2.1 = st ∧
    (render kind uloc context st gl).2.2.1 = gl ∧
    callbackEvents st (render kind uloc context st gl).2.2.2 =
      [(RenderError.InitializationFailed, notInitializedMsg kind)] ∧
    (∀ config : IRenderConfig, configMatches kind config = true →
      drv.compiles config.vertexShaderSource = true →
      drv.compiles config.fragmentShaderSource = true →
      drv.links config.vertexShaderSource config.fragmentShaderSource = true →
      config.vertexCount ≠ 0 →
      ((initRenderer kind drv config st gl).1 = true ∧
       (render kind uloc context (initRenderer kind drv config st gl).2.1
          (initRenderer kind drv config st gl).2.2.1).1 = true)) := by
  have hr := render_uninit kind uloc context st gl h0
  refine ⟨by rw [hr], by rw [hr], by rw [hr], ?_, ?_⟩
  · rw [hr]
    simp [callbackEvents, hcb, reportError]
  · intro config hm hv hf hl hne
    refine ⟨(initRenderer_ok kind drv config st gl hm hv hf hl hne).1, ?_⟩
    rw [render_ok kind uloc context _ _
      (initRenderer_ok kind drv config st gl hm hv hf hl hne).2.1]

/-- C7, witness: the theorem applied to a fresh TriangleRender with a
registered callback, then the default TriangleConfig. -/
theorem C7_witness :
    (render .triangle ulocZero ctx0 (setErrorCallback true TriangleRender.new)
        GLState.initial).1 = false ∧
    (render .triangle ulocZero ctx0 (setErrorCallback true TriangleRender.new)
        GLState.initial).2.1 = setErrorCallback true TriangleRender.new ∧
    (render .triangle ulocZero ctx0 (setErrorCallback true TriangleRender.new)
        GLState.initial).2.2.1 = GLState.initial ∧
    callbackEvents (setErrorCallback true TriangleRender.new)
      (render .triangle ulocZero ctx0 (setErrorCallback true TriangleRender.new)
        GLState.initial).2.2.2 =
      [(RenderError.InitializationFailed, notInitializedMsg .triangle)] ∧
    (∀ config : IRenderConfig, configMatches .triangle config = true →
      drvAllOk.compiles config.vertexShaderSource = true →
      drvAllOk.compiles config.fragmentShaderSource = true →
      drvAllOk.links config.vertexShaderSource config.fragmentShaderSource = true →
      config.vertexCount ≠ 0 →
      ((initRenderer .triangle drvAllOk config
          (setErrorCallback true TriangleRender.new) GLState.initial).1 = true ∧
       (render .triangle ulocZero ctx0
          (initRenderer .triangle drvAllOk config
            (setErrorCallback true TriangleRender.new) GLState.initial).2.1
          (initRenderer .triangle drvAllOk config
            (setErrorCallback true TriangleRender.new) GLState.initial).2.2.1).1 = true)) :=
  C7_render_before_init .triangle drvAllOk ulocZero ctx0
    (setErrorCallback true TriangleRender.new) GLState.initial rfl rfl

/-! Claim C8. -/

/-- C8: RenderFactory.create is total (never throws — it is a function
into Option): every name token outside the compiled-in set and every enum
value outside the compiled-in set yields none, for every combination of
build flags; a compiled-in token yields a freshly constructed renderer of
the matching concrete type, whose initialized flag is false. -/
theorem C8_factory_total (flags : BuildFlags) :
    (∀ typeName : String, typeName ∉ compiledNames flags →
        RenderFactory.createByName flags typeName = none) ∧
    (∀ ty : Int, ty ∉ compiledTypeValues flags →
        RenderFactory.create flags ty = none) ∧
    (flags.useTriangleRender = true →
      (RenderFactory.createByName flags "triangle" =
          some (.triangle, TriangleRender.new) ∧
       RenderFactory.create flags RenderTypeTriangle =
          some (.triangle, TriangleRender.new))) ∧
    (flags.useCubeRender = true →
      (RenderFactory.createByName flags "cube" = some (.cube, CubeRender.new) ∧
       RenderFactory.create flags RenderTypeCube = some (.cube, CubeRender.new))) ∧
    TriangleRender.new.initialized = false ∧
    CubeRender.new.initialized = false := by
  obtain ⟨ut, uc⟩ := flags
  refine ⟨?_, ?_, ?_, ?_, rfl, rfl⟩
  · intro typeName h
    cases ut <;> cases uc <;>
      simp_all [compiledNames, RenderFactory.createByName, RenderFactory.create]
  · intro ty h
    cases ut <;> cases uc <;>
      simp_all [compiledTypeValues, RenderFactory.create,
        RenderTypeTriangle, RenderTypeCube]
  · intro h
    subst h
    simp [RenderFactory.createByName, RenderFactory.create,
      RenderTypeTriangle, RenderTypeCube]
  · intro h
    subst h
    cases ut <;>
      simp [RenderFactory.createByName, RenderFactory.create,
        RenderTypeTriangle, RenderTypeCube]

/-- C8, witness: in a build with both variants, an unknown string (note
the case-sensitive mismatch "Triangle"), an unknown enum value 7, and a
compiled-out variant request all yield none; the exact token "triangle"
yields a fresh uninitialized TriangleRender. -/
theorem C8_witness :
    RenderFactory.createByName ⟨true, true⟩ "Triangle" = none ∧
    RenderFactory.create ⟨true, true⟩ 7 = none ∧
    RenderFactory.createByName ⟨false, true⟩ "triangle" = none ∧
    (RenderFactory.createByName ⟨true, true⟩ "triangle" =
        some (.triangle, TriangleRender.new) ∧
     RenderFactory.create ⟨true, true⟩ RenderTypeTriangle =
        some (.triangle, TriangleRender.new)) :=
  ⟨(C8_factory_total ⟨true, true⟩).1 "Triangle" (by decide),
   (C8_factory_total ⟨true, true⟩).2.1 7 (by decide),
   (C8_factory_total ⟨false, true⟩).1 "triangle" (by decide),
   (C8_factory_total ⟨true, true⟩).2.2.1 rfl⟩

/-! Claim C9. -/

/-- C9: withFrameNumber and withDeltaTime are pure functional updates: the
returned context carries the given value in its respective field and every
other field of the receiver unchanged; the receiver itself is a value the
call cannot mutate (the embedding of the const C++ methods is a pure
function on the RenderContext value). -/
theorem C9_context_updates (ctx : RenderContext) (n : Nat) (dt : ℚ) :
    ((ctx.withFrameNumber n).frameNumber = n ∧
     (ctx.withFrameNumber n).viewportSize = ctx.viewportSize ∧
     (ctx.withFrameNumber n).projectionMatrix = ctx.projectionMatrix ∧
     (ctx.withFrameNumber n).deltaTime = ctx.deltaTime) ∧
    ((ctx.withDeltaTime dt).deltaTime = dt ∧
     (ctx.withDeltaTime dt).viewportSize = ctx.viewportSize ∧
     (ctx.withDeltaTime dt).projectionMatrix = ctx.projectionMatrix ∧
     (ctx.withDeltaTime dt).frameNumber = ctx.frameNumber) :=
  ⟨⟨rfl, rfl, rfl, rfl⟩, ⟨rfl, rfl, rfl, rfl⟩⟩

/-! Claim C10. -/

/-- C10, counterexample: the first render call on a freshly initialized
renderer mutates a renderer field other than the running rotation angle:
the shader member's memoized uniform-location cache grows from empty to
the cached entry for "mvp". -/
theorem C10_counterexample :
    triangleInitRun.2.1.shader.uniformLocationCache = [] ∧
    (render .triangle ulocZero ctx0 triangleInitRun.2.1
        triangleInitRun.2.2.1).2.1.shader.uniformLocationCache = [("mvp", 0)] ∧
    (render .triangle ulocZero ctx0 triangleInitRun.2.1
        triangleInitRun.2.2.1).2.1.shader ≠ triangleInitRun.2.1.shader := by
  decide

/-- C10, amended: on a Ready renderer, render returns true and mutates
only the running rotation angle and the shader member's uniform-location
cache (memoization of the "mvp" lookup); the cached clear color, rotation
speed, vertex count, GPU handles (program, VAO, VBO), stored projection,
error-callback registration, initialized flag, last error text, and the GL
state are all unchanged, and no error is reported. -/
theorem C10_render_frame_effect (kind : RendererKind)
    (uloc : Nat → String → Int) (context : RenderContext)
    (st : RendererState) (gl : GLState) (h : st.initialized = true) :
    (render kind uloc context st gl).1 = true ∧
    (render kind uloc context st gl).2.2.1 = gl ∧
    (render kind uloc context st gl).2.2.2 = [] ∧
    (render kind uloc context st gl).2.1.clearColor = st.clearColor ∧
    (render kind uloc context st gl).2.1.rotationSpeed = st.rotationSpeed ∧
    (render kind uloc context st gl).2.1.vertexCount = st.vertexCount ∧
    (render kind uloc context st gl).2.1.vao = st.vao ∧
    (render kind uloc context st gl).2.1.vbo = st.vbo ∧
    (render kind uloc context st gl).2.1.projection = st.projection ∧
    (render kind uloc context st gl).2.1.errorCallbackSet = st.errorCallbackSet ∧
    (render kind uloc context st gl).2.1.initialized = true ∧
    (render kind uloc context st gl).2.1.shader.programId = st.shader.programId ∧
    (render kind uloc context st gl).2.1.shader.lastErrorMsg = st.shader.lastErrorMsg ∧
    (render kind uloc context st gl).2.1.currentAngle =
      wrapAngle st.rotationSpeed st.currentAngle ∧
    (render kind uloc context st gl).2.1.shader =
      Shader.setMat4 uloc "mvp"
        (Mat4.mul context.projectionMatrix
          (modelMatrix (wrapAngle st.rotationSpeed st.currentAngle)))
        st.shader := by
  rw [render_ok kind uloc context st gl h]
  exact ⟨rfl, rfl, rfl, rfl, rfl, rfl, rfl, rfl, rfl, rfl, h,
    setMat4_programId uloc "mvp"
      (Mat4.mul context.projectionMatrix
        (modelMatrix (wrapAngle st.rotationSpeed st.currentAngle))) st.shader,
    setMat4_lastErrorMsg uloc "mvp"
      (Mat4.mul context.projectionMatrix
        (modelMatrix (wrapAngle st.rotationSpeed st.currentAngle))) st.shader,
    rfl, rfl⟩

/-- C10, witness: the amended theorem applied to the Ready renderer
produced by the default triangle initialize. -/
theorem C10_witness :
    (render .triangle ulocZero ctx0 triangleInitRun.2.1 triangleInitRun.2.2.1).1 = true ∧
    (render .triangle ulocZero ctx0 triangleInitRun.2.1 triangleInitRun.2.2.1).2.2.1 =
      triangleInitRun.2.2.1 ∧
    (render .triangle ulocZero ctx0 triangleInitRun.2.1 triangleInitRun.2.2.1).2.2.2 = [] ∧
    (render .triangle ulocZero ctx0 triangleInitRun.2.1
        triangleInitRun.2.2.1).2.1.clearColor = triangleInitRun.2.1.clearColor ∧
    (render .triangle ulocZero ctx0 triangleInitRun.2.1
        triangleInitRun.2.2.1).2.1.rotationSpeed = triangleInitRun.2.1.rotationSpeed ∧
    (render .triangle ulocZero ctx0 triangleInitRun.2.1
        triangleInitRun.2.2.1).2.1.vertexCount = triangleInitRun.2.1.vertexCount ∧
    (render .triangle ulocZero ctx0 triangleInitRun.2.1
        triangleInitRun.2.2.1).2.1.vao = triangleInitRun.2.1.vao ∧
    (render .triangle ulocZero ctx0 triangleInitRun.2.1
        triangleInitRun.2.2.1).2.1.vbo = triangleInitRun.2.1.vbo ∧
    (render .triangle ulocZero ctx0 triangleInitRun.2.1
        triangleInitRun.2.2.1).2.1.projection = triangleInitRun.2.1.projection ∧
    (render .triangle ulocZero ctx0 triangleInitRun.2.1
        triangleInitRun.2.2.1).2.1.errorCallbackSet = triangleInitRun.2.1.errorCallbackSet ∧
    (render .triangle ulocZero ctx0 triangleInitRun.2.1
        triangleInitRun.2.2.1).2.1.initialized = true ∧
    (render .triangle ulocZero ctx0 triangleInitRun.2.1
        triangleInitRun.2.2.1).2.1.shader.programId = triangleInitRun.2.1.shader.programId ∧
    (render .triangle ulocZero ctx0 triangleInitRun.2.1
        triangleInitRun.2.2.1).2.1.shader.lastErrorMsg = triangleInitRun.2.1.shader.lastErrorMsg ∧
    (render .triangle ulocZero ctx0 triangleInitRun.2.1
        triangleInitRun.2.2.1).2.1.currentAngle =
      wrapAngle triangleInitRun.2.1.rotationSpeed triangleInitRun.2.1.currentAngle ∧
    (render .triangle ulocZero ctx0 triangleInitRun.2.1
        triangleInitRun.2.2.1).2.1.shader =
      Shader.setMat4 ulocZero "mvp"
        (Mat4.mul ctx0.projectionMatrix
          (modelMatrix (wrapAngle triangleInitRun.2.1.rotationSpeed
            triangleInitRun.2.1.currentAngle)))
        triangleInitRun.2.1.shader :=
  C10_render_frame_effect .triangle ulocZero ctx0 triangleInitRun.2.1
    triangleInitRun.2.2.1 (by decide)

end OpenGLFramework
